import Mathlib

/-!
Verification of the `uls` autocomplete resolver (`src/autocomplete.cpp`).

The C++ source is shallowly embedded: the AST service of the UTAP library
(documents, declarations, symbols, types, templates) is opaque to the
resolver and is modelled as explicit data (records of lists and functions),
while every function of `autocomplete.cpp` is translated into a Lean
definition of the same name. Machine integers (`uint8_t` masks) are
modelled as `Nat` with explicit 8-bit complement.
-/

set_option autoImplicit false

/-- Kinds from `enum SymType`, assigned to unique bits so that filters can be
represented as bitmasks (`function = 1`). -/
def symFunction : Nat := 1

/-- `SymType::variable = 2`. -/
def symVariable : Nat := 2

/-- `SymType::channel = 4`. -/
def symChannel : Nat := 4

/-- `SymType::type = 8`. -/
def symType : Nat := 8

/-- `SymType::process = 16`. -/
def symProcess : Nat := 16

/-- `SymType::unknown = 32`. -/
def symUnknown : Nat := 32

/-- Models the C++ `~` on a `uint8_t` mask value (`~m` truncated to 8 bits);
for `m < 256` this is the bitwise complement within 8 bits. -/
def not8 (m : Nat) : Nat := 255 ^^^ m

/-- The UTAP `type_t` kinds that `autocomplete.cpp` inspects via `get_kind()`
or `is(kind)`; every other kind is collapsed into `OTHER`. -/
inductive TypeKind where
  | RECORD
  | TYPEDEF
  | INSTANCE
  | OTHER
deriving DecidableEq

/-- The answers a UTAP `type_t` node gives to the kind predicates used by
`autocomplete.cpp` (`is_channel()`, `is_clock()`, ..., `is(TYPEDEF)`,
`is(INSTANCE)`, `is(RECORD)`, `get_kind()`).  The UTAP library is an external
collaborator, so the predicates are independent observations of an opaque
node. -/
structure TypeNode where
  is_channel : Bool
  is_clock : Bool
  is_integral : Bool
  is_double : Bool
  is_string : Bool
  is_record : Bool
  is_typedef : Bool
  is_function : Bool
  is_function_external : Bool
  is_array : Bool
  is_instance : Bool
  isRecordK : Bool
  get_kind : TypeKind

/-- A UTAP `type_t`: a node of predicate answers together with its subtype
children (`get(i)`) and their labels (`get_label(i)`). -/
inductive UType where
  | node : TypeNode → List UType → List String → UType

/-- `type_t::get_kind()` of the root node. -/
def UType.kind : UType → TypeKind
  | UType.node d _ _ => d.get_kind

/-- The predicate record of the root node. -/
def UType.data : UType → TypeNode
  | UType.node d _ _ => d

/-- `type_t::size()`: the number of subtype children. -/
def UType.size : UType → Nat
  | UType.node _ c _ => c.length

/-- `type_t::get(0)`.  In the source this is only called when a child exists;
on a childless node we return the node itself to stay total. -/
def UType.get0 : UType → UType
  | UType.node _ (c :: _) _ => c
  | t => t

/-- `sym_type` from `autocomplete.cpp` lines 21-34: classify a type
descriptor into a suggestion kind, first match wins, recursing through
arrays on the element type. -/
def sym_type : UType → Nat
  | UType.node d c _ =>
    if d.is_channel then symChannel
    else if d.is_clock || d.is_integral || d.is_double || d.is_string || d.is_record then symVariable
    else if d.is_typedef then symType
    else if d.is_function || d.is_function_external then symFunction
    else if d.is_array then
      match c with
      | t :: _ => sym_type t
      | [] => symUnknown
    else symUnknown

/-- `struct Suggestion { std::string name; SymType type; }`. -/
structure Suggestion where
  name : String
  type : Nat
deriving DecidableEq

/-- `guard_items`. -/
def guard_items : List Suggestion :=
  [⟨"true", symUnknown⟩, ⟨"false", symUnknown⟩]

/-- `queries_items`. -/
def queries_items : List Suggestion :=
  [⟨"int", symType⟩, ⟨"true", symUnknown⟩, ⟨"false", symUnknown⟩,
   ⟨"forall", symUnknown⟩, ⟨"exists", symUnknown⟩]

/-- `parameter_items`. -/
def parameter_items : List Suggestion :=
  [⟨"int", symType⟩, ⟨"double", symType⟩, ⟨"clock", symType⟩, ⟨"chan", symType⟩,
   ⟨"bool", symType⟩, ⟨"broadcast", symUnknown⟩, ⟨"const", symUnknown⟩,
   ⟨"urgent", symUnknown⟩]

/-- `default_items`. -/
def default_items : List Suggestion :=
  [⟨"int", symType⟩, ⟨"double", symType⟩, ⟨"clock", symType⟩, ⟨"chan", symType⟩,
   ⟨"bool", symType⟩, ⟨"broadcast", symUnknown⟩, ⟨"const", symUnknown⟩,
   ⟨"urgent", symUnknown⟩, ⟨"void", symUnknown⟩, ⟨"meta", symUnknown⟩,
   ⟨"true", symUnknown⟩, ⟨"false", symUnknown⟩, ⟨"forall", symUnknown⟩,
   ⟨"exists", symUnknown⟩, ⟨"return", symUnknown⟩, ⟨"typedef", symUnknown⟩,
   ⟨"struct", symUnknown⟩]

/-- `builtin_functions`. -/
def builtin_functions : List Suggestion :=
  [⟨"abs", symFunction⟩, ⟨"fabs", symFunction⟩, ⟨"fmod", symFunction⟩,
   ⟨"fma", symFunction⟩, ⟨"fmax", symFunction⟩, ⟨"fmin", symFunction⟩,
   ⟨"exp", symFunction⟩, ⟨"exp2", symFunction⟩, ⟨"expm1", symFunction⟩,
   ⟨"ln", symFunction⟩, ⟨"log", symFunction⟩, ⟨"log10", symFunction⟩,
   ⟨"log2", symFunction⟩, ⟨"log1p", symFunction⟩, ⟨"pow", symFunction⟩,
   ⟨"sqrt", symFunction⟩, ⟨"cbrt", symFunction⟩, ⟨"hypot", symFunction⟩,
   ⟨"sin", symFunction⟩, ⟨"cos", symFunction⟩, ⟨"tan", symFunction⟩,
   ⟨"asin", symFunction⟩, ⟨"acos", symFunction⟩, ⟨"atan", symFunction⟩,
   ⟨"atan2", symFunction⟩, ⟨"sinh", symFunction⟩, ⟨"cosh", symFunction⟩,
   ⟨"tanh", symFunction⟩, ⟨"asinh", symFunction⟩, ⟨"acosh", symFunction⟩,
   ⟨"atanh", symFunction⟩, ⟨"erf", symFunction⟩, ⟨"erfc", symFunction⟩,
   ⟨"tgamma", symFunction⟩, ⟨"lgamma", symFunction⟩, ⟨"ceil", symFunction⟩,
   ⟨"floor", symFunction⟩, ⟨"trunc", symFunction⟩, ⟨"round", symFunction⟩,
   ⟨"fint", symFunction⟩, ⟨"ldexp", symFunction⟩, ⟨"ilogb", symFunction⟩,
   ⟨"logb", symFunction⟩, ⟨"nextafter", symFunction⟩, ⟨"copysign", symFunction⟩,
   ⟨"signbit", symFunction⟩, ⟨"random", symFunction⟩, ⟨"random_normal", symFunction⟩,
   ⟨"random_poisson", symFunction⟩, ⟨"random_arcsine", symFunction⟩,
   ⟨"random_beta", symFunction⟩, ⟨"random_gamma", symFunction⟩,
   ⟨"tri", symFunction⟩, ⟨"random_weibull", symFunction⟩]

/-- A UTAP `symbol_t` as observed by the resolver: its name, its type and
the identity of the frame (declaration scope) it belongs to. -/
structure symbol_t where
  name : String
  ty : UType
  frame : Nat

/-- `is_struct` from line 128: the symbol's type has exactly one subtype and
that subtype `is(RECORD)`. -/
def is_struct (sym : symbol_t) : Bool :=
  sym.ty.size == 1 && (UType.get0 sym.ty).data.isRecordK

/-- `is_template` from line 133: the symbol's type `is(INSTANCE)`. -/
def is_template (sym : symbol_t) : Bool :=
  sym.ty.data.is_instance

/-- `is_digit` from line 135. -/
def is_digit (c : Char) : Bool := c.isDigit

/-- `is_name_autogenerated` from lines 138-141: Uppaal names unnamed
locations `_id0`, `_id1`, ...; the name starts with `"_id"` and everything
after those three characters is a decimal digit. -/
def is_name_autogenerated (name : String) : Bool :=
  String.mk (name.data.take 3) == "_id" && (name.data.drop 3).all is_digit

/-- A UTAP `template_t` as used by `add_template`: the names of its
variables, functions and locations, in declaration order. -/
structure template_t where
  vars : List String
  functions : List String
  locations : List String

/-- A source range as delivered to the `visit_symbols` callback; only the
begin offset is inspected. -/
structure TextRange where
  begOffset : Nat

/-- A UTAP `declarations_t` block located by `navigate_xpath`: its frame
identity, and the stream of `(symbol, range)` pairs that
`DeclarationsWalker::visit_symbols` delivers to the callback for it (the
walker enumerates the block's own frame and all enclosing frames). -/
structure declarations_t where
  frame : Nat
  visit : List (symbol_t × TextRange)

/-- An entity found by `find_declaration`: either a symbol or a bare type. -/
inductive UtapEntity where
  | sym : symbol_t → UtapEntity
  | typ : UType → UtapEntity

/-- The document together with the external AST services the resolver calls.
`navigate_xpath` is modelled from the spec: on an xpath that cannot be
navigated it yields `none` and the resolver returns the empty list;
`find_declaration` resolves a (possibly dotted) name in a declarations
scope; `find_process` looks up a template definition by name. -/
structure Document where
  navigate_xpath : String → Nat → Option declarations_t
  find_declaration : declarations_t → String → Option UtapEntity
  find_process : String → Option template_t

/-- The `Identifier` request: xpath, character offset, partial identifier. -/
structure Identifier where
  xpath : String
  offset : Nat
  identifier : String

/-- `std::string::find_last_of('.')` at character granularity: the index of
the last occurrence of `c`, or `none` for `npos`. -/
def find_last_of (s : String) (c : Char) : Option Nat :=
  ((List.range s.data.length).filter (fun i => s.data.getD i c == c)).getLast?

/-- `std::string::substr(0, n)` at character granularity. -/
def strTake (s : String) (n : Nat) : String := String.mk (s.data.take n)

/-- `std::string_view::ends_with` at character granularity. -/
def ends_with (s suffix : String) : Bool := suffix.data.isSuffixOf s.data

/-- The `ResultBuilder` state: accumulated items, textual prefix (`pfx`
names the C++ `prefix` member) and ignored-kind mask.  `ResultBuilder{}`
value-initializes all three members. -/
structure ResultBuilder where
  items : List Suggestion
  pfx : String
  type_filter_mask : Nat

/-- A freshly constructed `ResultBuilder{}`. -/
def emptyBuilder : ResultBuilder := ⟨[], "", 0⟩

/-- `ResultBuilder::add_item` (lines 198-202): append the suggestion iff the
mask admits its kind. -/
def ResultBuilder.add_item (b : ResultBuilder) (item : String) (t : Nat) : ResultBuilder :=
  if b.type_filter_mask &&& t == 0 then
    { b with items := b.items ++ [⟨item, t⟩] }
  else b

/-- `ResultBuilder::add_items` for one container (lines 150-153): copy every
suggestion that passes the mask check. -/
def ResultBuilder.add_items (b : ResultBuilder) (container : List Suggestion) : ResultBuilder :=
  { b with items := b.items ++ container.filter (fun s => b.type_filter_mask &&& s.type == 0) }

/-- `ResultBuilder::set_ignored_mask`. -/
def ResultBuilder.set_ignored_mask (b : ResultBuilder) (ignore_mask : Nat) : ResultBuilder :=
  { b with type_filter_mask := ignore_mask }

/-- `ResultBuilder::add_defaults` (lines 157-167): seed the context's
default vocabulary. -/
def ResultBuilder.add_defaults (b : ResultBuilder) (xpath : String) : ResultBuilder :=
  if ends_with xpath "/queries!" then
    ResultBuilder.add_items (ResultBuilder.add_items b queries_items) builtin_functions
  else if ends_with xpath "/parameter!" then
    ResultBuilder.add_items b parameter_items
  else if ends_with xpath "label[@kind=\"guard\"]" then
    ResultBuilder.add_items (ResultBuilder.add_items b guard_items) builtin_functions
  else
    ResultBuilder.add_items (ResultBuilder.add_items b default_items) builtin_functions

/-- `ResultBuilder::set_prefix`. -/
def ResultBuilder.set_prefix (b : ResultBuilder) ( new_prefix : String) : ResultBuilder :=
  { b with pfx := new_prefix }

/-- `ResultBuilder::add_struct` (lines 169-181): skip empty types, unwrap
non-record outer layers through the first subtype, then add every field
label behind the prefix with kind `variable`. -/
def ResultBuilder.add_struct (b : ResultBuilder) : UType → ResultBuilder
  | UType.node d c l =>
    if c.length = 0 then b
    else if d.get_kind ≠ TypeKind.RECORD then
      match c with
      | t :: _ => ResultBuilder.add_struct b t
      | [] => b
    else
      (List.range c.length).foldl
        (fun acc i => ResultBuilder.add_item acc (b.pfx ++ l.getD i "") symVariable) b

/-- `ResultBuilder::add_template` (lines 183-196): add the template's
variables, functions, and non-auto-generated locations behind the prefix. -/
def ResultBuilder.add_template (b : ResultBuilder) (templ : template_t) : ResultBuilder :=
  let b1 := templ.vars.foldl
    (fun acc n => ResultBuilder.add_item acc (b.pfx ++ n) symVariable) b
  let b2 := templ.functions.foldl
    (fun acc n => ResultBuilder.add_item acc (b.pfx ++ n) symFunction) b1
  templ.locations.foldl
    (fun acc n =>
      if is_name_autogenerated n then acc
      else ResultBuilder.add_item acc (b.pfx ++ n) symUnknown) b2

/-- The suffix dispatch of `AutocompleteModule::configure` (lines 212-225):
set the ignored-kind mask from the xpath suffix; on no match the builder is
left untouched. -/
def apply_context_mask (b : ResultBuilder) (xpath : String) : ResultBuilder :=
  if ends_with xpath "/parameter!" then
    ResultBuilder.set_ignored_mask b (not8 symType)
  else if ends_with xpath "label[@kind=\"invariant\"]" then
    ResultBuilder.set_ignored_mask b (not8 (symVariable ||| symFunction))
  else if ends_with xpath "label[@kind=\"exponentialrate\"]" then
    ResultBuilder.set_ignored_mask b (not8 symVariable)
  else if ends_with xpath "label[@kind=\"select\"]" then
    ResultBuilder.set_ignored_mask b (not8 symType)
  else if ends_with xpath "label[@kind=\"guard\"]" then
    ResultBuilder.set_ignored_mask b (not8 (symVariable ||| symFunction))
  else if ends_with xpath "label[@kind=\"synchronisation\"]" then
    ResultBuilder.set_ignored_mask b (not8 symChannel)
  else if ends_with xpath "label[@kind=\"assignment\"]" then
    ResultBuilder.set_ignored_mask b (not8 (symVariable ||| symFunction))
  else b

/-- The ignored-kind mask a request with the given xpath runs under. -/
def context_mask (xpath : String) : Nat :=
  (apply_context_mask emptyBuilder xpath).type_filter_mask

/-- `use_templates` of line 247: template symbols are emitted as processes
exactly in the query and system contexts. -/
def use_templates (xpath : String) : Bool :=
  (xpath == "/nta/queries!") || (xpath == "/nta/system!")

/-- The `visit_symbols` callback of lines 248-257: emit a visible symbol,
templates only as `process` and only when `use` holds. -/
def visit_step (use : Bool) (declsFrame : Nat) (offset : Nat)
    (acc : ResultBuilder) (p : symbol_t × TextRange) : ResultBuilder :=
  if p.1.frame != declsFrame || p.2.begOffset < offset then
    if !(is_template p.1) then
      ResultBuilder.add_item acc p.1.name (sym_type p.1.ty)
    else if use then
      ResultBuilder.add_item acc p.1.name symProcess
    else acc
  else acc

/-- The `autocomplete` command handler (lines 209-261): configure the mask
from the xpath, locate the declarations block, then either resolve a dotted
member chain or seed defaults and walk the visible symbols. -/
def autocomplete (doc : Document) (id : Identifier) : List Suggestion :=
  let results := apply_context_mask emptyBuilder id.xpath
  match doc.navigate_xpath id.xpath id.offset with
  | none => []
  | some decls =>
    match find_last_of id.identifier '.' with
    | some off =>
      (match doc.find_declaration decls (strTake id.identifier off) with
       | some entity =>
         let results := ResultBuilder.set_prefix results (strTake id.identifier (off + 1))
         (match entity with
          | UtapEntity.sym s =>
            if is_template s && (id.xpath == "/nta/queries!") then
              (match doc.find_process s.name with
               | some proc => ResultBuilder.add_template results proc
               | none => results)
            else if is_struct s then
              ResultBuilder.add_struct results (UType.get0 s.ty)
            else results
          | UtapEntity.typ t => ResultBuilder.add_struct results t).items
       | none => results.items)
    | none =>
      let results := ResultBuilder.add_defaults results id.xpath
      (decls.visit.foldl
        (visit_step (use_templates id.xpath) decls.frame id.offset) results).items
/-! ### Concrete sample data used to exercise the definitions -/

/-- A type node answering `false` to every predicate. -/
def plainNode : TypeNode :=
  ⟨false, false, false, false, false, false, false, false, false, false, false, false,
   TypeKind.OTHER⟩

/-- A plain integer type. -/
def intType : UType := UType.node { plainNode with is_integral := true } [] []

/-- A channel type. -/
def chanType : UType := UType.node { plainNode with is_channel := true } [] []

/-- A record type with fields `a` and `b`. -/
def recType : UType :=
  UType.node { plainNode with is_record := true, isRecordK := true, get_kind := TypeKind.RECORD }
    [intType, intType] ["a", "b"]

/-- The type of a symbol declared with a record type: one subtype that
`is(RECORD)`. -/
def structSymbolType : UType := UType.node plainNode [recType] []

/-- The type of a template-instance symbol. -/
def instType : UType := UType.node { plainNode with is_instance := true } [] []

/-- A document whose xpaths never navigate. -/
def docNone : Document :=
  { navigate_xpath := fun _ _ => none
    find_declaration := fun _ _ => none
    find_process := fun _ => none }

/-- The declarations block of `docMain`: frame `0`, with a channel `c` in
an enclosing frame, a template instance `P` and a late variable in the
located frame. -/
def mainDecls : declarations_t :=
  ⟨0, [(⟨"c", chanType, 1⟩, ⟨5⟩), (⟨"P", instType, 0⟩, ⟨3⟩),
       (⟨"late", intType, 0⟩, ⟨9⟩)]⟩

/-- A document with one channel `c` in an enclosing frame, one template
instance `P` and one variable `late` in the located frame, a record symbol
`s`, and a process body for `P`. -/
def docMain : Document :=
  { navigate_xpath := fun _ _ => some mainDecls
    find_declaration := fun _ n =>
      if n == "s" then some (UtapEntity.typ recType)
      else if n == "P" then some (UtapEntity.sym ⟨"P", instType, 0⟩)
      else none
    find_process := fun n =>
      if n == "P" then some ⟨["y"], ["f"], ["L0", "_id0", "_id"]⟩ else none }

/-- A document whose located declarations contain a variable named
`_id0` in an enclosing frame. -/
def docCex : Document :=
  { navigate_xpath := fun _ _ => some ⟨0, [(⟨"_id0", intType, 1⟩, ⟨0⟩)]⟩
    find_declaration := fun _ _ => none
    find_process := fun _ => none }


/-! ### Basic lemmas about the builder operations -/

theorem add_item_mask (b : ResultBuilder) (n : String) (t : Nat) :
    (ResultBuilder.add_item b n t).type_filter_mask = b.type_filter_mask := by
  unfold ResultBuilder.add_item
  split <;> rfl

theorem add_item_pfx (b : ResultBuilder) (n : String) (t : Nat) :
    (ResultBuilder.add_item b n t).pfx = b.pfx := by
  unfold ResultBuilder.add_item
  split <;> rfl

theorem add_item_mono (b : ResultBuilder) (n : String) (t : Nat) (s : Suggestion)
    (h : s ∈ b.items) : s ∈ (ResultBuilder.add_item b n t).items := by
  unfold ResultBuilder.add_item
  split
  · exact List.mem_append_left _ h
  · exact h

theorem add_item_sound (b : ResultBuilder) (n : String) (t : Nat) (s : Suggestion)
    (h : s ∈ (ResultBuilder.add_item b n t).items) :
    s ∈ b.items ∨ (b.type_filter_mask &&& t = 0 ∧ s = ⟨n, t⟩) := by
  unfold ResultBuilder.add_item at h
  split at h
  case isTrue hc =>
    rcases List.mem_append.mp h with h1 | h1
    · exact Or.inl h1
    · exact Or.inr ⟨by simpa using hc, List.mem_singleton.mp h1⟩
  case isFalse => exact Or.inl h

theorem add_item_self (b : ResultBuilder) (n : String) (t : Nat)
    (h : b.type_filter_mask &&& t = 0) :
    Suggestion.mk n t ∈ (ResultBuilder.add_item b n t).items := by
  unfold ResultBuilder.add_item
  have : (b.type_filter_mask &&& t == 0) = true := by simp [h]
  rw [if_pos this]
  exact List.mem_append_right _ (List.mem_singleton.mpr rfl)

theorem add_items_mask (b : ResultBuilder) (l : List Suggestion) :
    (ResultBuilder.add_items b l).type_filter_mask = b.type_filter_mask := rfl

theorem add_items_pfx (b : ResultBuilder) (l : List Suggestion) :
    (ResultBuilder.add_items b l).pfx = b.pfx := rfl

theorem add_items_mono (b : ResultBuilder) (l : List Suggestion) (s : Suggestion)
    (h : s ∈ b.items) : s ∈ (ResultBuilder.add_items b l).items :=
  List.mem_append_left _ h

theorem add_items_sound (b : ResultBuilder) (l : List Suggestion) (s : Suggestion)
    (h : s ∈ (ResultBuilder.add_items b l).items) :
    s ∈ b.items ∨ (s ∈ l ∧ b.type_filter_mask &&& s.type = 0) := by
  rcases List.mem_append.mp h with h1 | h1
  · exact Or.inl h1
  · have := List.mem_filter.mp h1
    exact Or.inr ⟨this.1, by simpa using this.2⟩

theorem set_ignored_mask_items (b : ResultBuilder) (m : Nat) :
    (ResultBuilder.set_ignored_mask b m).items = b.items := rfl

theorem set_prefix_items (b : ResultBuilder) (p : String) :
    ( ResultBuilder.set_prefix b p).items = b.items := rfl

theorem set_prefix_mask (b : ResultBuilder) (p : String) :
    ( ResultBuilder.set_prefix b p).type_filter_mask = b.type_filter_mask := rfl

theorem set_prefix_pfx (b : ResultBuilder) (p : String) :
    ( ResultBuilder.set_prefix b p).pfx = p := rfl

theorem apply_context_mask_items (b : ResultBuilder) (xp : String) :
    (apply_context_mask b xp).items = b.items := by
  unfold apply_context_mask
  repeat' split
  all_goals rfl

theorem apply_context_mask_pfx (b : ResultBuilder) (xp : String) :
    (apply_context_mask b xp).pfx = b.pfx := by
  unfold apply_context_mask
  repeat' split
  all_goals rfl

theorem add_defaults_mask (b : ResultBuilder) (xp : String) :
    (ResultBuilder.add_defaults b xp).type_filter_mask = b.type_filter_mask := by
  unfold ResultBuilder.add_defaults
  repeat' split
  all_goals rfl

theorem add_defaults_sound (b : ResultBuilder) (xp : String) (s : Suggestion)
    (h : s ∈ (ResultBuilder.add_defaults b xp).items) :
    s ∈ b.items ∨
      (b.type_filter_mask &&& s.type = 0 ∧
        (s ∈ queries_items ∨ s ∈ parameter_items ∨ s ∈ guard_items ∨
         s ∈ default_items ∨ s ∈ builtin_functions)) := by
  unfold ResultBuilder.add_defaults at h
  split at h
  · rcases add_items_sound _ _ _ h with h1 | h1
    · rcases add_items_sound _ _ _ h1 with h2 | h2
      · exact Or.inl h2
      · exact Or.inr ⟨h2.2, Or.inl h2.1⟩
    · exact Or.inr ⟨by simpa using h1.2, Or.inr (Or.inr (Or.inr (Or.inr h1.1)))⟩
  · split at h
    · rcases add_items_sound _ _ _ h with h1 | h1
      · exact Or.inl h1
      · exact Or.inr ⟨h1.2, Or.inr (Or.inl h1.1)⟩
    · split at h
      · rcases add_items_sound _ _ _ h with h1 | h1
        · rcases add_items_sound _ _ _ h1 with h2 | h2
          · exact Or.inl h2
          · exact Or.inr ⟨h2.2, Or.inr (Or.inr (Or.inl h2.1))⟩
        · exact Or.inr ⟨by simpa using h1.2, Or.inr (Or.inr (Or.inr (Or.inr h1.1)))⟩
      · rcases add_items_sound _ _ _ h with h1 | h1
        · rcases add_items_sound _ _ _ h1 with h2 | h2
          · exact Or.inl h2
          · exact Or.inr ⟨h2.2, Or.inr (Or.inr (Or.inr (Or.inl h2.1)))⟩
        · exact Or.inr ⟨by simpa using h1.2, Or.inr (Or.inr (Or.inr (Or.inr h1.1)))⟩

/-! ### Generic lemmas about builder-valued folds -/

theorem foldl_mask_eq {α : Type} (step : ResultBuilder → α → ResultBuilder)
    (hmask : ∀ acc x, (step acc x).type_filter_mask = acc.type_filter_mask) :
    ∀ (l : List α) (b : ResultBuilder),
      (l.foldl step b).type_filter_mask = b.type_filter_mask := by
  intro l
  induction l with
  | nil => intro b; rfl
  | cons x xs ih =>
    intro b
    rw [List.foldl_cons, ih, hmask]

theorem foldl_pfx_eq {α : Type} (step : ResultBuilder → α → ResultBuilder)
    (hp : ∀ acc x, (step acc x).pfx = acc.pfx) :
    ∀ (l : List α) (b : ResultBuilder), (l.foldl step b).pfx = b.pfx := by
  intro l
  induction l with
  | nil => intro b; rfl
  | cons x xs ih =>
    intro b
    rw [List.foldl_cons, ih, hp]

theorem foldl_items_mono {α : Type} (step : ResultBuilder → α → ResultBuilder)
    (hmono : ∀ acc x s, s ∈ acc.items → s ∈ (step acc x).items) :
    ∀ (l : List α) (b : ResultBuilder) (s : Suggestion),
      s ∈ b.items → s ∈ (l.foldl step b).items := by
  intro l
  induction l with
  | nil => intro b s h; exact h
  | cons x xs ih =>
    intro b s h
    rw [List.foldl_cons]
    exact ih _ _ (hmono _ _ _ h)

theorem foldl_items_sound {α : Type} (step : ResultBuilder → α → ResultBuilder)
    (Q : α → Suggestion → Prop)
    (hstep : ∀ acc x s, s ∈ (step acc x).items →
      s ∈ acc.items ∨ (acc.type_filter_mask &&& s.type = 0 ∧ Q x s))
    (hmask : ∀ acc x, (step acc x).type_filter_mask = acc.type_filter_mask) :
    ∀ (l : List α) (b : ResultBuilder) (s : Suggestion),
      s ∈ (l.foldl step b).items →
      s ∈ b.items ∨ (b.type_filter_mask &&& s.type = 0 ∧ ∃ x, x ∈ l ∧ Q x s) := by
  intro l
  induction l with
  | nil => intro b s h; exact Or.inl h
  | cons x xs ih =>
    intro b s h
    rw [List.foldl_cons] at h
    rcases ih _ _ h with h1 | h1
    · rcases hstep _ _ _ h1 with h2 | h2
      · exact Or.inl h2
      · exact Or.inr ⟨h2.1, x, List.mem_cons_self x xs, h2.2⟩
    · rw [hmask] at h1
      exact Or.inr ⟨h1.1, h1.2.choose, List.mem_cons_of_mem _ h1.2.choose_spec.1, h1.2.choose_spec.2⟩

theorem add_struct_mask (b : ResultBuilder) (t : UType) :
    (ResultBuilder.add_struct b t).type_filter_mask = b.type_filter_mask := by
  induction t using ResultBuilder.add_struct.induct b with
  | case1 d c a h => rw [ResultBuilder.add_struct.eq_def]; simp [h]
  | case2 d a h t tail h2 ih =>
    rw [ResultBuilder.add_struct.eq_def]
    simp only [if_neg h2, if_pos h]
    exact ih
  | case3 d a h h2 => simp at h2
  | case4 d c a h h2 =>
    rw [ResultBuilder.add_struct.eq_def]
    rcases c with _ | ⟨c0, cs⟩
    · simp at h
    · simp only [if_neg h, if_neg h2]
      exact foldl_mask_eq _ (fun acc x => add_item_mask _ _ _) _ _

theorem add_struct_sound (b : ResultBuilder) (t : UType) :
    ∀ s : Suggestion, s ∈ (ResultBuilder.add_struct b t).items →
      s ∈ b.items ∨
        (b.type_filter_mask &&& s.type = 0 ∧ s.type = symVariable ∧
          ∃ x, s.name = b.pfx ++ x) := by
  induction t using ResultBuilder.add_struct.induct b with
  | case1 d c a h =>
    intro s hs
    rw [ResultBuilder.add_struct.eq_def] at hs
    simp only [if_pos h] at hs
    exact Or.inl hs
  | case2 d a h t tail h2 ih =>
    intro s hs
    rw [ResultBuilder.add_struct.eq_def] at hs
    simp only [if_neg h2, if_pos h] at hs
    exact ih s hs
  | case3 d a h h2 => simp at h2
  | case4 d c a h h2 =>
    intro s hs
    rw [ResultBuilder.add_struct.eq_def] at hs
    rcases c with _ | ⟨c0, cs⟩
    · simp at h
    · simp only [if_neg h, if_neg h2] at hs
      rcases foldl_items_sound _ (fun i s => s = ⟨b.pfx ++ a.getD i "", symVariable⟩)
        (fun acc x s hx => by
          rcases add_item_sound _ _ _ _ hx with h1 | h1
          · exact Or.inl h1
          · refine Or.inr ⟨?_, h1.2⟩
            rw [h1.2]
            exact h1.1)
        (fun acc x => add_item_mask _ _ _) _ _ _ hs with h1 | h1
      · exact Or.inl h1
      · obtain ⟨i, _, hi⟩ := h1.2
        subst hi
        exact Or.inr ⟨h1.1, rfl, a.getD i "", rfl⟩

theorem add_template_mask (b : ResultBuilder) (tp : template_t) :
    (ResultBuilder.add_template b tp).type_filter_mask = b.type_filter_mask := by
  unfold ResultBuilder.add_template
  rw [foldl_mask_eq _ (fun acc x => by
        by_cases hn : is_name_autogenerated x = true
        · simp [hn]
        · simp [hn, add_item_mask]),
      foldl_mask_eq _ (fun acc x => add_item_mask _ _ _),
      foldl_mask_eq _ (fun acc x => add_item_mask _ _ _)]

theorem add_template_sound (b : ResultBuilder) (tp : template_t) (s : Suggestion)
    (h : s ∈ (ResultBuilder.add_template b tp).items) :
    s ∈ b.items ∨
      (b.type_filter_mask &&& s.type = 0 ∧ ∃ n, s.name = b.pfx ++ n ∧
        ((n ∈ tp.vars ∧ s.type = symVariable) ∨
         (n ∈ tp.functions ∧ s.type = symFunction) ∨
         (n ∈ tp.locations ∧ is_name_autogenerated n = false ∧ s.type = symUnknown))) := by
  unfold ResultBuilder.add_template at h
  have hmV : (tp.vars.foldl
      (fun acc n => ResultBuilder.add_item acc (b.pfx ++ n) symVariable) b).type_filter_mask
      = b.type_filter_mask :=
    foldl_mask_eq _ (fun acc x => add_item_mask _ _ _) _ _
  have hmF : (tp.functions.foldl
      (fun acc n => ResultBuilder.add_item acc (b.pfx ++ n) symFunction)
      (tp.vars.foldl (fun acc n => ResultBuilder.add_item acc (b.pfx ++ n) symVariable) b)).type_filter_mask
      = b.type_filter_mask := by
    rw [foldl_mask_eq _ (fun acc x => add_item_mask _ _ _), hmV]
  rcases foldl_items_sound _
      (fun n s => is_name_autogenerated n = false ∧ s = ⟨b.pfx ++ n, symUnknown⟩)
      (fun acc x s hx => by
        split at hx
        · exact Or.inl hx
        · rcases add_item_sound _ _ _ _ hx with h1 | h1
          · exact Or.inl h1
          · refine Or.inr ⟨?_, by simpa using ‹¬is_name_autogenerated x = true›, h1.2⟩
            rw [h1.2]
            exact h1.1)
      (fun acc x => by
        split
        · rfl
        · exact add_item_mask _ _ _) _ _ _ h with h1 | h1
  · rcases foldl_items_sound _
        (fun n s => s = ⟨b.pfx ++ n, symFunction⟩)
        (fun acc x s hx => by
          rcases add_item_sound _ _ _ _ hx with h2 | h2
          · exact Or.inl h2
          · refine Or.inr ⟨?_, h2.2⟩
            rw [h2.2]
            exact h2.1)
        (fun acc x => add_item_mask _ _ _) _ _ _ h1 with h2 | h2
    · rcases foldl_items_sound _
          (fun n s => s = ⟨b.pfx ++ n, symVariable⟩)
          (fun acc x s hx => by
            rcases add_item_sound _ _ _ _ hx with h3 | h3
            · exact Or.inl h3
            · refine Or.inr ⟨?_, h3.2⟩
              rw [h3.2]
              exact h3.1)
          (fun acc x => add_item_mask _ _ _) _ _ _ h2 with h3 | h3
      · exact Or.inl h3
      · obtain ⟨n, hn, hs⟩ := h3.2
        subst hs
        exact Or.inr ⟨h3.1, n, rfl, Or.inl ⟨hn, rfl⟩⟩
    · obtain ⟨n, hn, hs⟩ := h2.2
      rw [hmV] at h2
      subst hs
      exact Or.inr ⟨h2.1, n, rfl, Or.inr (Or.inl ⟨hn, rfl⟩)⟩
  · obtain ⟨n, hn, hauto, hs⟩ := h1.2
    rw [hmF] at h1
    subst hs
    exact Or.inr ⟨h1.1, n, rfl, Or.inr (Or.inr ⟨hn, hauto, rfl⟩)⟩


theorem visit_step_mask (u : Bool) (df off : Nat) (acc : ResultBuilder)
    (p : symbol_t × TextRange) :
    (visit_step u df off acc p).type_filter_mask = acc.type_filter_mask := by
  unfold visit_step
  split
  · split
    · exact add_item_mask _ _ _
    · split
      · exact add_item_mask _ _ _
      · rfl
  · rfl

theorem visit_step_mono (u : Bool) (df off : Nat) (acc : ResultBuilder)
    (p : symbol_t × TextRange) (s : Suggestion) (h : s ∈ acc.items) :
    s ∈ (visit_step u df off acc p).items := by
  unfold visit_step
  split
  · split
    · exact add_item_mono _ _ _ _ h
    · split
      · exact add_item_mono _ _ _ _ h
      · exact h
  · exact h

theorem visit_step_sound (u : Bool) (df off : Nat) (acc : ResultBuilder)
    (p : symbol_t × TextRange) (s : Suggestion)
    (h : s ∈ (visit_step u df off acc p).items) :
    s ∈ acc.items ∨
      (acc.type_filter_mask &&& s.type = 0 ∧ s.name = p.1.name ∧
        (p.1.frame ≠ df ∨ p.2.begOffset < off) ∧
        ((is_template p.1 = false ∧ s.type = sym_type p.1.ty) ∨
         (is_template p.1 = true ∧ u = true ∧ s.type = symProcess))) := by
  unfold visit_step at h
  split at h
  case isTrue hv =>
    have hvis : p.1.frame ≠ df ∨ p.2.begOffset < off := by
      simpa [Bool.or_eq_true, bne_iff_ne, decide_eq_true_eq] using hv
    split at h
    case isTrue htpl =>
      rcases add_item_sound _ _ _ _ h with h1 | h1
      · exact Or.inl h1
      · have hs := h1.2
        subst hs
        exact Or.inr ⟨h1.1, rfl, hvis, Or.inl ⟨by simpa using htpl, rfl⟩⟩
    case isFalse htpl =>
      split at h
      case isTrue hu =>
        rcases add_item_sound _ _ _ _ h with h1 | h1
        · exact Or.inl h1
        · have hs := h1.2
          subst hs
          exact Or.inr ⟨h1.1, rfl, hvis, Or.inr ⟨by simpa using htpl, hu, rfl⟩⟩
      case isFalse => exact Or.inl h
  case isFalse => exact Or.inl h

theorem visit_step_skip (u : Bool) (df off : Nat) (acc : ResultBuilder)
    (sym : symbol_t) (r : TextRange) (hf : sym.frame = df) (ho : off ≤ r.begOffset) :
    visit_step u df off acc (sym, r) = acc := by
  unfold visit_step
  have hc : ((sym, r).1.frame != df || decide ((sym, r).2.begOffset < off)) = false := by
    simp [hf, Nat.not_lt.mpr ho]
  rw [hc]
  rfl

theorem visit_step_hit (u : Bool) (df off : Nat) (acc : ResultBuilder)
    (sym : symbol_t) (r : TextRange)
    (hvis : sym.frame ≠ df ∨ r.begOffset < off)
    (htpl : is_template sym = true) (hu : u = true)
    (hmask : acc.type_filter_mask &&& symProcess = 0) :
    Suggestion.mk sym.name symProcess ∈ (visit_step u df off acc (sym, r)).items := by
  unfold visit_step
  have hc : ((sym, r).1.frame != df || decide ((sym, r).2.begOffset < off)) = true := by
    rcases hvis with h | h
    · simp [h]
    · simp [h]
  rw [hc, if_pos rfl]
  have ht : (!is_template (sym, r).1) = false := by simp [htpl]
  rw [ht]
  simp only [Bool.false_eq_true, if_false, hu, if_pos rfl]
  exact add_item_self _ _ _ hmask

theorem foldl_visit_hits (u : Bool) (df off : Nat) (l : List (symbol_t × TextRange))
    (acc : ResultBuilder) (sym : symbol_t) (r : TextRange)
    (hmem : (sym, r) ∈ l) (hmask : acc.type_filter_mask = 0)
    (htpl : is_template sym = true) (hu : u = true)
    (hvis : sym.frame ≠ df ∨ r.begOffset < off) :
    Suggestion.mk sym.name symProcess ∈ (l.foldl (visit_step u df off) acc).items := by
  induction l generalizing acc with
  | nil => cases hmem
  | cons hd tl ih =>
    rw [List.foldl_cons]
    rcases List.mem_cons.mp hmem with heq | hmem2
    · rw [← heq]
      exact foldl_items_mono _ (fun a x s hs => visit_step_mono _ _ _ _ _ _ hs) _ _ _
        (visit_step_hit u df off acc sym r hvis htpl hu (by rw [hmask]; decide))
    · exact ih _ hmem2 (by rw [visit_step_mask]; exact hmask)

/-! ### Shape lemmas for the `autocomplete` handler -/

theorem autocomplete_nav_none (doc : Document) (id : Identifier)
    (h : doc.navigate_xpath id.xpath id.offset = none) :
    autocomplete doc id = [] := by
  simp [autocomplete, h]

theorem autocomplete_nondot (doc : Document) (id : Identifier) (decls : declarations_t)
    (hnav : doc.navigate_xpath id.xpath id.offset = some decls)
    (hdot : find_last_of id.identifier '.' = none) :
    autocomplete doc id =
      (decls.visit.foldl (visit_step (use_templates id.xpath) decls.frame id.offset)
        (ResultBuilder.add_defaults (apply_context_mask emptyBuilder id.xpath) id.xpath)).items := by
  simp [autocomplete, hnav, hdot]

theorem autocomplete_dot_unresolved (doc : Document) (id : Identifier)
    (decls : declarations_t) (off : Nat)
    (hnav : doc.navigate_xpath id.xpath id.offset = some decls)
    (hdot : find_last_of id.identifier '.' = some off)
    (hfd : doc.find_declaration decls (strTake id.identifier off) = none) :
    autocomplete doc id = [] := by
  simp only [autocomplete, hnav, hdot, hfd]
  rw [apply_context_mask_items]
  rfl

theorem autocomplete_dot_resolved (doc : Document) (id : Identifier)
    (decls : declarations_t) (off : Nat) (entity : UtapEntity)
    (hnav : doc.navigate_xpath id.xpath id.offset = some decls)
    (hdot : find_last_of id.identifier '.' = some off)
    (hfd : doc.find_declaration decls (strTake id.identifier off) = some entity) :
    autocomplete doc id =
      (match entity with
       | UtapEntity.sym s =>
         if is_template s && (id.xpath == "/nta/queries!") then
           (match doc.find_process s.name with
            | some proc =>
              ResultBuilder.add_template
                ( ResultBuilder.set_prefix (apply_context_mask emptyBuilder id.xpath)
                  (strTake id.identifier (off + 1))) proc
            | none =>
              ResultBuilder.set_prefix (apply_context_mask emptyBuilder id.xpath)
                (strTake id.identifier (off + 1)))
         else if is_struct s then
           ResultBuilder.add_struct
             ( ResultBuilder.set_prefix (apply_context_mask emptyBuilder id.xpath)
               (strTake id.identifier (off + 1))) (UType.get0 s.ty)
         else
           ResultBuilder.set_prefix (apply_context_mask emptyBuilder id.xpath)
             (strTake id.identifier (off + 1))
       | UtapEntity.typ t =>
         ResultBuilder.add_struct
           ( ResultBuilder.set_prefix (apply_context_mask emptyBuilder id.xpath)
             (strTake id.identifier (off + 1))) t).items := by
  simp only [autocomplete, hnav, hdot, hfd]

theorem sym_type_ne_process (t : UType) : sym_type t ≠ symProcess := by
  induction t using sym_type.induct with
  | case1 d c a h => rw [sym_type.eq_def]; simp only [if_pos h]; decide
  | case2 d c a h1 h2 =>
    rw [sym_type.eq_def]; simp only [if_neg h1, if_pos h2]; decide
  | case3 d c a h1 h2 h3 =>
    rw [sym_type.eq_def]; simp only [if_neg h1, if_neg h2, if_pos h3]; decide
  | case4 d c a h1 h2 h3 h4 =>
    rw [sym_type.eq_def]; simp only [if_neg h1, if_neg h2, if_neg h3, if_pos h4]; decide
  | case5 d a h1 h2 h3 h4 h5 t tail ih =>
    rw [sym_type.eq_def]
    simp only [if_neg h1, if_neg h2, if_neg h3, if_neg h4, if_pos h5]
    exact ih
  | case6 d a h1 h2 h3 h4 h5 =>
    rw [sym_type.eq_def]
    simp only [if_neg h1, if_neg h2, if_neg h3, if_neg h4, if_pos h5]
    decide
  | case7 d c a h1 h2 h3 h4 h5 =>
    rw [sym_type.eq_def]
    simp only [if_neg h1, if_neg h2, if_neg h3, if_neg h4, if_neg h5]
    decide

/-- Where every suggestion in the result of `autocomplete` can come from:
it always passes the context's ignored-kind mask; in a dotted request every
suggestion extends the literal prefix through the last dot and carries kind
`variable`, `function` or `unknown`; in a non-dotted request it is either a
static vocabulary entry or a visible symbol emitted by the walker. -/
theorem mem_autocomplete (doc : Document) (id : Identifier) (s : Suggestion)
    (h : s ∈ autocomplete doc id) :
    context_mask id.xpath &&& s.type = 0 ∧
    ((∃ off, find_last_of id.identifier '.' = some off ∧
        (∃ x, s.name = strTake id.identifier (off + 1) ++ x) ∧
        (s.type = symVariable ∨ s.type = symFunction ∨ s.type = symUnknown)) ∨
     (find_last_of id.identifier '.' = none ∧
       (s ∈ queries_items ∨ s ∈ parameter_items ∨ s ∈ guard_items ∨
        s ∈ default_items ∨ s ∈ builtin_functions ∨
        ∃ decls p, doc.navigate_xpath id.xpath id.offset = some decls ∧
          p ∈ decls.visit ∧ s.name = p.1.name ∧
          (p.1.frame ≠ decls.frame ∨ p.2.begOffset < id.offset) ∧
          ((is_template p.1 = false ∧ s.type = sym_type p.1.ty) ∨
           (is_template p.1 = true ∧ use_templates id.xpath = true ∧
             s.type = symProcess))))) := by
  cases hnav : doc.navigate_xpath id.xpath id.offset with
  | none =>
    rw [autocomplete_nav_none doc id hnav] at h
    cases h
  | some decls =>
    cases hdot : find_last_of id.identifier '.' with
    | some off =>
      cases hfd : doc.find_declaration decls (strTake id.identifier off) with
      | none =>
        rw [autocomplete_dot_unresolved doc id decls off hnav hdot hfd] at h
        cases h
      | some entity =>
        rw [autocomplete_dot_resolved doc id decls off entity hnav hdot hfd] at h
        have hBitems :
            ( ResultBuilder.set_prefix (apply_context_mask emptyBuilder id.xpath)
              (strTake id.identifier (off + 1))).items = [] := by
          rw [set_prefix_items, apply_context_mask_items]
          rfl
        have hBmask :
            ( ResultBuilder.set_prefix (apply_context_mask emptyBuilder id.xpath)
              (strTake id.identifier (off + 1))).type_filter_mask
              = context_mask id.xpath := by
          rw [set_prefix_mask]
          unfold context_mask
          rfl
        have hBpfx :
            ( ResultBuilder.set_prefix (apply_context_mask emptyBuilder id.xpath)
              (strTake id.identifier (off + 1))).pfx
              = strTake id.identifier (off + 1) := set_prefix_pfx _ _
        cases entity with
        | sym s0 =>
          dsimp only at h
          split at h
          · cases hfp : doc.find_process s0.name with
            | none =>
              rw [hfp] at h
              rw [hBitems] at h
              cases h
            | some proc =>
              rw [hfp] at h
              rcases add_template_sound _ _ _ h with h1 | h1
              · rw [hBitems] at h1; cases h1
              · rw [hBmask] at h1
                obtain ⟨n, hn, hkind⟩ := h1.2
                rw [hBpfx] at hn
                refine ⟨h1.1, Or.inl ⟨off, rfl, ⟨n, hn⟩, ?_⟩⟩
                rcases hkind with h2 | h2 | h2
                · exact Or.inl h2.2
                · exact Or.inr (Or.inl h2.2)
                · exact Or.inr (Or.inr h2.2.2)
          · split at h
            · rcases add_struct_sound _ _ _ h with h1 | h1
              · rw [hBitems] at h1; cases h1
              · rw [hBmask] at h1
                obtain ⟨x, hx⟩ := h1.2.2
                rw [hBpfx] at hx
                exact ⟨h1.1, Or.inl ⟨off, rfl, ⟨x, hx⟩, Or.inl h1.2.1⟩⟩
            · rw [hBitems] at h
              cases h
        | typ t =>
          dsimp only at h
          rcases add_struct_sound _ _ _ h with h1 | h1
          · rw [hBitems] at h1; cases h1
          · rw [hBmask] at h1
            obtain ⟨x, hx⟩ := h1.2.2
            rw [hBpfx] at hx
            exact ⟨h1.1, Or.inl ⟨off, rfl, ⟨x, hx⟩, Or.inl h1.2.1⟩⟩
    | none =>
      rw [autocomplete_nondot doc id decls hnav hdot] at h
      have hDmask :
          (ResultBuilder.add_defaults (apply_context_mask emptyBuilder id.xpath)
            id.xpath).type_filter_mask = context_mask id.xpath := by
        rw [add_defaults_mask]
        unfold context_mask
        rfl
      have hsound := foldl_items_sound
        (visit_step (use_templates id.xpath) decls.frame id.offset)
        (fun p s => s.name = p.1.name ∧
          (p.1.frame ≠ decls.frame ∨ p.2.begOffset < id.offset) ∧
          ((is_template p.1 = false ∧ s.type = sym_type p.1.ty) ∨
           (is_template p.1 = true ∧ use_templates id.xpath = true ∧
             s.type = symProcess)))
        (fun acc x s hx => by
          rcases visit_step_sound _ _ _ _ _ _ hx with h1 | h1
          · exact Or.inl h1
          · exact Or.inr ⟨h1.1, h1.2.1, h1.2.2.1, h1.2.2.2⟩)
        (fun acc x => visit_step_mask _ _ _ _ _)
        decls.visit
        (ResultBuilder.add_defaults (apply_context_mask emptyBuilder id.xpath) id.xpath)
        s h
      rcases hsound with h1 | h1
      · rcases add_defaults_sound _ _ _ h1 with h2 | h2
        · rw [apply_context_mask_items] at h2; cases h2
        · refine ⟨by unfold context_mask; exact h2.1, ?_⟩
          refine Or.inr ⟨rfl, ?_⟩
          rcases h2.2 with h3 | h3 | h3 | h3 | h3
          · exact Or.inl h3
          · exact Or.inr (Or.inl h3)
          · exact Or.inr (Or.inr (Or.inl h3))
          · exact Or.inr (Or.inr (Or.inr (Or.inl h3)))
          · exact Or.inr (Or.inr (Or.inr (Or.inr (Or.inl h3))))
      · rw [hDmask] at h1
        obtain ⟨p, hp, hq⟩ := h1.2
        exact ⟨h1.1, Or.inr ⟨rfl, Or.inr (Or.inr (Or.inr (Or.inr (Or.inr
          ⟨decls, p, rfl, hp, hq⟩))))⟩⟩

/-! ### String helper lemmas -/

theorem find_last_of_spec (s : String) (c : Char) (off : Nat)
    (h : find_last_of s c = some off) :
    off < s.data.length ∧ s.data.getD off c = c := by
  unfold find_last_of at h
  have hmem0 : off ∈
      ((List.range s.data.length).filter (fun i => s.data.getD i c == c)).getLast? := h
  obtain ⟨hne, heq⟩ := List.mem_getLast?_eq_getLast hmem0
  have hmem : off ∈ (List.range s.data.length).filter (fun i => s.data.getD i c == c) := by
    rw [heq]
    exact List.getLast_mem hne
  have := List.mem_filter.mp hmem
  exact ⟨List.mem_range.mp this.1, by simpa using this.2⟩

theorem dot_mem_strTake (s : String) (off : Nat)
    (h : find_last_of s '.' = some off) :
    '.' ∈ (strTake s (off + 1)).data := by
  obtain ⟨hlt, hget⟩ := find_last_of_spec s '.' off h
  unfold strTake
  have hlen : off < (s.data.take (off + 1)).length := by
    rw [List.length_take]
    omega
  refine List.mem_iff_getElem.mpr ⟨off, hlen, ?_⟩
  rw [List.getElem_take]
  rw [List.getD_eq_getElem s.data '.' hlt] at hget
  exact hget

theorem autogen_chars (n : String) (h : is_name_autogenerated n = true) :
    '.' ∉ n.data := by
  unfold is_name_autogenerated at h
  rcases Bool.and_eq_true_iff.mp h with ⟨h1, h2⟩
  have htake : n.data.take 3 = ['_', 'i', 'd'] := by
    have := eq_of_beq h1
    have hd : (String.mk (n.data.take 3)).data = "_id".data := by rw [this]
    simpa using hd
  intro hmem
  rw [← List.take_append_drop 3 n.data] at hmem
  rcases List.mem_append.mp hmem with hm | hm
  · rw [htake] at hm
    simp at hm
  · have := List.all_eq_true.mp h2 _ hm
    simp [is_digit] at this

theorem mem_data_append_left (a b : String) (c : Char) (h : c ∈ a.data) :
    c ∈ (a ++ b).data := by
  rw [String.data_append]
  exact List.mem_append_left _ h

/-! ### The claims -/

/-- Claim C1: for every request whose xpath matches none of the seven
filtering suffixes of the context table (which includes the exact paths
`/nta/queries!` and `/nta/system!`), the result builder's ignored-kind mask
is `0`: a freshly constructed builder has mask `0`, empty prefix and no
items, and the suffix dispatch leaves the mask at `0`, so no suggestion is
excluded by kind in those contexts. -/
theorem C1_otherwise_mask_zero (xpath : String)
    (h1 : ends_with xpath "/parameter!" = false)
    (h2 : ends_with xpath "label[@kind=\"invariant\"]" = false)
    (h3 : ends_with xpath "label[@kind=\"exponentialrate\"]" = false)
    (h4 : ends_with xpath "label[@kind=\"select\"]" = false)
    (h5 : ends_with xpath "label[@kind=\"guard\"]" = false)
    (h6 : ends_with xpath "label[@kind=\"synchronisation\"]" = false)
    (h7 : ends_with xpath "label[@kind=\"assignment\"]" = false) :
    emptyBuilder.type_filter_mask = 0 ∧ emptyBuilder.pfx = "" ∧
    emptyBuilder.items = [] ∧ context_mask xpath = 0 ∧
    context_mask "/nta/queries!" = 0 ∧ context_mask "/nta/system!" = 0 := by
  refine ⟨rfl, rfl, rfl, ?_, by decide, by decide⟩
  unfold context_mask apply_context_mask
  rw [h1, h2, h3, h4, h5, h6, h7]
  rfl

/-- Witness for C1 at the exact query path. -/
theorem C1_otherwise_mask_zero_witness :
    emptyBuilder.type_filter_mask = 0 ∧ emptyBuilder.pfx = "" ∧
    emptyBuilder.items = [] ∧ context_mask "/nta/queries!" = 0 ∧
    context_mask "/nta/queries!" = 0 ∧ context_mask "/nta/system!" = 0 :=
  C1_otherwise_mask_zero "/nta/queries!" (by decide) (by decide) (by decide)
    (by decide) (by decide) (by decide) (by decide)

/-- Claim C2 (P1, filter soundness): every suggestion in the returned list
passes the ignored-kinds mask derived from the request's xpath:
`m &&& s.kind = 0`. -/
theorem C2_filter_soundness (doc : Document) (id : Identifier) (s : Suggestion)
    (h : s ∈ autocomplete doc id) :
    context_mask id.xpath &&& s.type = 0 :=
  (mem_autocomplete doc id s h).1

/-- Witness for C2: under a `parameter!` xpath the keyword `int` of kind
`type` is returned and passes the mask. -/
theorem C2_filter_soundness_witness :
    Suggestion.mk "int" symType ∈ autocomplete docMain ⟨"x/parameter!", 0, ""⟩ ∧
    context_mask "x/parameter!" &&& (Suggestion.mk "int" symType).type = 0 :=
  ⟨by decide, C2_filter_soundness docMain ⟨"x/parameter!", 0, ""⟩ _ (by decide)⟩

/-- In a dotted request every returned name extends the literal prefix of
the identifier through the last dot. -/
theorem dotted_names_extend_pfx (doc : Document) (id : Identifier) (off : Nat)
    (hdot : find_last_of id.identifier '.' = some off) :
    ∀ s ∈ autocomplete doc id, ∃ x, s.name = strTake id.identifier (off + 1) ++ x := by
  intro s hs
  rcases (mem_autocomplete doc id s hs).2 with h | h
  · obtain ⟨off2, heq, hx, _⟩ := h
    rw [hdot] at heq
    cases heq
    exact hx
  · rw [hdot] at h
    cases h.1

/-- Claim C5 (P2, prefix preservation): when the request's identifier
contains at least one dot, every returned name starts with the literal
prefix through the last dot. -/
theorem C5_prefix_preservation (doc : Document) (id : Identifier) (off : Nat)
    (hdot : find_last_of id.identifier '.' = some off) :
    ∀ s ∈ autocomplete doc id, ∃ x, s.name = strTake id.identifier (off + 1) ++ x :=
  dotted_names_extend_pfx doc id off hdot

/-- Witness for C5: the dotted request `s.x` returns `s.a`, which extends
the prefix `s.`. -/
theorem C5_prefix_preservation_witness :
    ∃ x, (Suggestion.mk "s.a" symVariable).name = strTake "s.x" (1 + 1) ++ x :=
  C5_prefix_preservation docMain ⟨"/d", 0, "s.x"⟩ 1 (by decide) _ (by decide)

/-- Claim C9: when the xpath cannot be navigated to a declarations block,
the autocomplete command returns the empty list rather than an error. -/
theorem C9_unknown_context_empty (doc : Document) (id : Identifier)
    (h : doc.navigate_xpath id.xpath id.offset = none) :
    autocomplete doc id = [] :=
  autocomplete_nav_none doc id h

/-- Witness for C9 on a document that never navigates. -/
theorem C9_unknown_context_empty_witness :
    autocomplete docNone ⟨"/x", 0, ""⟩ = [] :=
  C9_unknown_context_empty docNone ⟨"/x", 0, ""⟩ rfl

/-- Claim C10: the auto-generated-name predicate accepts the bare name
`_id` (the all-digits check holds vacuously on the empty suffix), so a
location named exactly `_id` is suppressed from template member results. -/
theorem C10_bare_id_suppressed :
    is_name_autogenerated "_id" = true ∧
    ∀ b : ResultBuilder,
      (ResultBuilder.add_template b ⟨[], [], ["_id"]⟩).items = b.items := by
  have hauto : is_name_autogenerated "_id" = true := by decide
  refine ⟨hauto, fun b => ?_⟩
  unfold ResultBuilder.add_template
  simp [hauto]

/-- Claim C6: the kind classifier evaluates its rules in order with the
first match winning: channel, then the variable-like predicates (clock,
integral, floating, string, record), then typedef, then function or
external function, then arrays by recursion on the element type, and
`unknown` otherwise. -/
theorem C6_sym_type_order (d : TypeNode) (c : List UType) (l : List String) :
    (d.is_channel = true → sym_type (UType.node d c l) = symChannel) ∧
    (d.is_channel = false →
      (d.is_clock || d.is_integral || d.is_double || d.is_string || d.is_record) = true →
      sym_type (UType.node d c l) = symVariable) ∧
    (d.is_channel = false →
      (d.is_clock || d.is_integral || d.is_double || d.is_string || d.is_record) = false →
      d.is_typedef = true → sym_type (UType.node d c l) = symType) ∧
    (d.is_channel = false →
      (d.is_clock || d.is_integral || d.is_double || d.is_string || d.is_record) = false →
      d.is_typedef = false → (d.is_function || d.is_function_external) = true →
      sym_type (UType.node d c l) = symFunction) ∧
    (d.is_channel = false →
      (d.is_clock || d.is_integral || d.is_double || d.is_string || d.is_record) = false →
      d.is_typedef = false → (d.is_function || d.is_function_external) = false →
      d.is_array = true → ∀ t rest, c = t :: rest →
      sym_type (UType.node d c l) = sym_type t) ∧
    (d.is_channel = false →
      (d.is_clock || d.is_integral || d.is_double || d.is_string || d.is_record) = false →
      d.is_typedef = false → (d.is_function || d.is_function_external) = false →
      d.is_array = false → sym_type (UType.node d c l) = symUnknown) := by
  refine ⟨?_, ?_, ?_, ?_, ?_, ?_⟩
  · intro h1
    rw [sym_type.eq_def]
    simp [h1]
  · intro h1 h2
    rw [sym_type.eq_def]
    simp [h1, h2]
  · intro h1 h2 h3
    rw [sym_type.eq_def]
    simp [h1, h2, h3]
  · intro h1 h2 h3 h4
    rw [sym_type.eq_def]
    simp [h1, h2, h3, h4]
  · intro h1 h2 h3 h4 h5 t rest hc
    subst hc
    rw [sym_type.eq_def]
    simp [h1, h2, h3, h4, h5]
  · intro h1 h2 h3 h4 h5
    rw [sym_type.eq_def]
    simp [h1, h2, h3, h4, h5]

/-- Witness for C6: an integral type node classifies as `variable`, and an
array of channels classifies as `channel` through the recursion. -/
theorem C6_sym_type_order_witness :
    sym_type (UType.node { plainNode with is_integral := true } [] []) = symVariable ∧
    sym_type (UType.node { plainNode with is_array := true } [chanType] []) =
      sym_type chanType :=
  ⟨(C6_sym_type_order _ [] []).2.1 (by decide) (by decide),
   (C6_sym_type_order _ [chanType] []).2.2.2.2.1 (by decide) (by decide) (by decide)
     (by decide) (by decide) chanType [] rfl⟩

/-- Claim C4 (forward-reference exclusion): in the walker callback, a
symbol in the located block's own frame whose range begins at or after the
request offset is skipped entirely, while a symbol from a different
(enclosing) frame passes the visibility test regardless of its offset and
is handed to the builder. -/
theorem C4_forward_reference_exclusion (u : Bool) (df off : Nat)
    (acc : ResultBuilder) (sym : symbol_t) (r : TextRange) :
    (sym.frame = df → off ≤ r.begOffset →
      visit_step u df off acc (sym, r) = acc) ∧
    (sym.frame ≠ df →
      visit_step u df off acc (sym, r) =
        if is_template sym = false then
          ResultBuilder.add_item acc sym.name (sym_type sym.ty)
        else if u = true then
          ResultBuilder.add_item acc sym.name symProcess
        else acc) := by
  constructor
  · exact visit_step_skip u df off acc sym r
  · intro hne
    unfold visit_step
    have hc : ((sym, r).1.frame != df || decide ((sym, r).2.begOffset < off)) = true := by
      simp [hne]
    rw [hc, if_pos rfl]
    by_cases ht : is_template sym <;> simp [ht]

/-- Witness for C4: a same-frame symbol at the request offset is skipped,
and an enclosing-frame symbol is handed to the builder. -/
theorem C4_forward_reference_exclusion_witness :
    (visit_step true 0 9 emptyBuilder (⟨"late", intType, 0⟩, ⟨9⟩) = emptyBuilder) ∧
    (visit_step true 0 0 emptyBuilder (⟨"c", chanType, 1⟩, ⟨5⟩) =
      if is_template ⟨"c", chanType, 1⟩ = false then
        ResultBuilder.add_item emptyBuilder "c" (sym_type chanType)
      else if true = true then
        ResultBuilder.add_item emptyBuilder "c" symProcess
      else emptyBuilder) :=
  ⟨(C4_forward_reference_exclusion true 0 9 emptyBuilder ⟨"late", intType, 0⟩ ⟨9⟩).1
      rfl (by decide),
   (C4_forward_reference_exclusion true 0 0 emptyBuilder ⟨"c", chanType, 1⟩ ⟨5⟩).2
      (by decide)⟩

/-- When template emission is disabled, the walker callback leaves the
builder untouched on a template symbol: templates are suppressed entirely
outside the query and system contexts. -/
theorem visit_step_tpl_skip (df off : Nat) (acc : ResultBuilder)
    (sym : symbol_t) (r : TextRange) (htpl : is_template sym = true) :
    visit_step false df off acc (sym, r) = acc := by
  unfold visit_step
  split
  · rw [htpl]
    simp
  · rfl

/-- Claim C3 (P5, template gating): a template-instance symbol is returned
with kind `process` iff the xpath is exactly `/nta/queries!` or exactly
`/nta/system!`.  On those two paths every visible template symbol of a
non-dotted request is in the returned list with kind `process`; on any
other path no returned suggestion has kind `process` at all, and the walker
callback drops template symbols entirely. -/
theorem C3_template_gating (doc : Document) (id : Identifier) :
    ((id.xpath = "/nta/queries!" ∨ id.xpath = "/nta/system!") →
      ∀ decls sym r, doc.navigate_xpath id.xpath id.offset = some decls →
        find_last_of id.identifier '.' = none →
        (sym, r) ∈ decls.visit → is_template sym = true →
        (sym.frame ≠ decls.frame ∨ r.begOffset < id.offset) →
        Suggestion.mk sym.name symProcess ∈ autocomplete doc id) ∧
    (id.xpath ≠ "/nta/queries!" → id.xpath ≠ "/nta/system!" →
      (∀ s ∈ autocomplete doc id, s.type ≠ symProcess) ∧
      (∀ (df off : Nat) (acc : ResultBuilder) (sym : symbol_t) (r : TextRange),
        is_template sym = true →
        visit_step (use_templates id.xpath) df off acc (sym, r) = acc)) := by
  constructor
  · intro hpath decls sym r hnav hdot hmem htpl hvis
    rw [autocomplete_nondot doc id decls hnav hdot]
    have hu : use_templates id.xpath = true := by
      unfold use_templates
      rcases hpath with h | h <;> rw [h] <;> decide
    refine foldl_visit_hits _ _ _ _ _ _ _ hmem ?_ htpl hu hvis
    rw [add_defaults_mask]
    rcases hpath with h | h <;> rw [h] <;> decide
  · intro hq hsys
    have hu : use_templates id.xpath = false := by
      simp [use_templates, hq, hsys]
    constructor
    · intro s hmem
      rcases (mem_autocomplete doc id s hmem).2 with h | h
      · obtain ⟨_, _, _, ht⟩ := h
        rcases ht with h2 | h2 | h2 <;> rw [h2] <;> decide
      · have hqi : ∀ x ∈ queries_items, x.type ≠ symProcess := by decide
        have hpi : ∀ x ∈ parameter_items, x.type ≠ symProcess := by decide
        have hgi : ∀ x ∈ guard_items, x.type ≠ symProcess := by decide
        have hdi : ∀ x ∈ default_items, x.type ≠ symProcess := by decide
        have hbi : ∀ x ∈ builtin_functions, x.type ≠ symProcess := by decide
        rcases h.2 with h3 | h3 | h3 | h3 | h3 | h3
        · exact hqi s h3
        · exact hpi s h3
        · exact hgi s h3
        · exact hdi s h3
        · exact hbi s h3
        · obtain ⟨decls, p, _, _, _, _, hk⟩ := h3
          rcases hk with ⟨_, hk2⟩ | ⟨_, hk3, _⟩
          · rw [hk2]
            exact sym_type_ne_process _
          · rw [hu] at hk3
            cases hk3
    · intro df off acc sym r htpl
      rw [hu]
      exact visit_step_tpl_skip df off acc sym r htpl

/-- Witness for C3: in the system context the template instance `P` is
returned as a `process`. -/
theorem C3_template_gating_witness :
    Suggestion.mk "P" symProcess ∈ autocomplete docMain ⟨"/nta/system!", 4, ""⟩ :=
  (C3_template_gating docMain ⟨"/nta/system!", 4, ""⟩).1 (Or.inr rfl)
    mainDecls ⟨"P", instType, 0⟩ ⟨3⟩ rfl (by decide)
    (List.mem_cons_of_mem _ (List.mem_cons_self _ _)) (by decide)
    (Or.inr (by decide))

/-- Claim C7 counterexample: the claim says no returned suggestion name
ever matches `_id` followed by digits, but a declaration symbol that is
itself named `_id0` passes through the symbol walk unfiltered: on the
request `{xpath := "/d", offset := 0, identifier := ""}` against a document
whose enclosing frame declares the variable `_id0`, the suggestion
`{name := "_id0", kind := variable}` is returned even though its name
matches the auto-generated pattern. -/
theorem C7_counterexample :
    Suggestion.mk "_id0" symVariable ∈ autocomplete docCex ⟨"/d", 0, ""⟩ ∧
    is_name_autogenerated "_id0" = true :=
  ⟨by decide, by decide⟩

/-- Claim C7 as amended: template member enumeration skips every location
whose name matches the auto-generated pattern (everything `add_template`
adds is a prefixed template variable, function, or non-auto-generated
location), and in a dotted request no returned name matches the pattern at
all; only the unfiltered symbol walk of a non-dotted request can return a
name that matches it. -/
theorem C7_no_autogenerated_amended (doc : Document) (id : Identifier) (off : Nat) :
    (∀ (b : ResultBuilder) (tp : template_t) (s : Suggestion),
       s ∈ (ResultBuilder.add_template b tp).items →
       s ∈ b.items ∨ ∃ n, s.name = b.pfx ++ n ∧
         (n ∈ tp.vars ∨ n ∈ tp.functions ∨
          (n ∈ tp.locations ∧ is_name_autogenerated n = false))) ∧
    (find_last_of id.identifier '.' = some off →
      ∀ s ∈ autocomplete doc id, is_name_autogenerated s.name = false) := by
  constructor
  · intro b tp s h
    rcases add_template_sound b tp s h with h1 | h1
    · exact Or.inl h1
    · obtain ⟨n, hn, hk⟩ := h1.2
      refine Or.inr ⟨n, hn, ?_⟩
      rcases hk with h2 | h2 | h2
      · exact Or.inl h2.1
      · exact Or.inr (Or.inl h2.1)
      · exact Or.inr (Or.inr ⟨h2.1, h2.2.1⟩)
  · intro hdot s hs
    cases hb : is_name_autogenerated s.name
    · rfl
    · exfalso
      obtain ⟨x, hx⟩ := dotted_names_extend_pfx doc id off hdot s hs
      refine autogen_chars s.name hb ?_
      rw [hx]
      exact mem_data_append_left _ _ _ (dot_mem_strTake id.identifier off hdot)

/-- Witness for C7: the dotted request `s.x` returns only names extending
`s.`, none of which is auto-generated. -/
theorem C7_no_autogenerated_amended_witness :
    is_name_autogenerated (Suggestion.mk "s.a" symVariable).name = false :=
  (C7_no_autogenerated_amended docMain ⟨"/d", 0, "s.x"⟩ 1).2 (by decide)
    ⟨"s.a", symVariable⟩ (by decide)

/-- Claim C8: a dotted request whose head cannot be resolved in the located
declarations scope returns the empty list, and no dotted request ever
returns a default keyword or built-in function name (every dotted result
name contains a dot, which no default or built-in name does). -/
theorem C8_unresolved_dotted_empty (doc : Document) (id : Identifier) (off : Nat)
    (hdot : find_last_of id.identifier '.' = some off) :
    (∀ decls, doc.navigate_xpath id.xpath id.offset = some decls →
       doc.find_declaration decls (strTake id.identifier off) = none →
       autocomplete doc id = []) ∧
    (∀ s ∈ autocomplete doc id, ∀ d, d ∈ default_items ++ builtin_functions →
       s.name ≠ d.name) := by
  constructor
  · intro decls hnav hfd
    exact autocomplete_dot_unresolved doc id decls off hnav hdot hfd
  · intro s hs d hd heq
    have hnodot : ∀ x ∈ default_items ++ builtin_functions, '.' ∉ x.name.data := by decide
    obtain ⟨x, hx⟩ := dotted_names_extend_pfx doc id off hdot s hs
    have hmemdot : '.' ∈ s.name.data := by
      rw [hx]
      exact mem_data_append_left _ _ _ (dot_mem_strTake id.identifier off hdot)
    rw [heq] at hmemdot
    exact hnodot d hd hmemdot

/-- Witness for C8: the dotted request `q.x` with unresolvable head `q`
returns the empty list. -/
theorem C8_unresolved_dotted_empty_witness :
    autocomplete docMain ⟨"/d", 0, "q.x"⟩ = [] :=
  (C8_unresolved_dotted_empty docMain ⟨"/d", 0, "q.x"⟩ 1 (by decide)).1
    mainDecls rfl rfl

/-- Witness for C10: `add_template` drops the location `_id` on a fresh
builder. -/
theorem C10_bare_id_suppressed_witness :
    is_name_autogenerated "_id" = true ∧
    (ResultBuilder.add_template emptyBuilder ⟨[], [], ["_id"]⟩).items
      = emptyBuilder.items :=
  ⟨C10_bare_id_suppressed.1, C10_bare_id_suppressed.2 emptyBuilder⟩
